import Mathlib

/-!
Verification of the openrouter-proxy streaming/caching core against its
natural-language specification.  The repository's TypeScript is shallowly
embedded: pure helpers become Lean functions, stateful code becomes explicit
state passing, JavaScript numbers become `Nat`/`Int`/`ℚ` as appropriate, and
fallible code returns `Option`/`Except`.  Each embedded definition is
translated from the source file named in its doc comment.
-/

namespace JsStr

/-- JavaScript `s.split(c)` for a single-character separator, over the
character list: `"a/b".split('/') = ["a","b"]`, `"".split('/') = [""]`,
`"/".split('/') = ["", ""]`. -/
def splitOnChar (c : Char) : List Char → List (List Char)
  | [] => [[]]
  | x :: xs =>
    match splitOnChar c xs, decide (x = c) with
    | r, true => [] :: r
    | [], false => [[x]]
    | y :: ys, false => (x :: y) :: ys

/-- Whitespace characters removed by JavaScript `String.prototype.trim`
(restricted to the ASCII whitespace that can occur in this protocol). -/
def isJsSpace (c : Char) : Bool :=
  c = ' ' || c = '\t' || c = '\n' || c = '\r'

/-- JavaScript `s.trim()`: strip whitespace from both ends. -/
def trimChars (l : List Char) : List Char :=
  ((l.dropWhile isJsSpace).reverse.dropWhile isJsSpace).reverse

/-- JavaScript `hay.includes(needle)` for strings: `needle` occurs as a
contiguous substring of `hay` (the empty string occurs in every string). -/
def strHasSubstr (hay needle : String) : Bool :=
  (List.range (hay.toList.length + 1)).any
    (fun i => needle.toList.isPrefixOf (hay.toList.drop i))

/-- JavaScript `s.toLowerCase()` (per character). -/
def lowerStr (s : String) : String :=
  String.mk (s.toList.map Char.toLower)

end JsStr

namespace CostCalc

/-- Pricing record from `src/utils/costCalculator.ts` (`ModelPricing`):
cost per 1K tokens.  The TypeScript decimals are represented exactly as
rationals. -/
structure ModelPricing where
  promptCostPer1K : ℚ
  completionCostPer1K : ℚ
deriving DecidableEq, Repr

/-- `DEFAULT_PRICING` from `costCalculator.ts`: 0.5 per 1K prompt tokens,
1.5 per 1K completion tokens. -/
def DEFAULT_PRICING : ModelPricing :=
  { promptCostPer1K := 1/2, completionCostPer1K := 3/2 }

/-- `MODEL_PRICING` from `costCalculator.ts`, in source (insertion) order,
which is the order `Object.entries` iterates string keys. -/
def MODEL_PRICING : List (String × ModelPricing) :=
  [ ("gpt-4", ⟨30, 60⟩)
  , ("gpt-4-turbo", ⟨10, 30⟩)
  , ("gpt-3.5-turbo", ⟨1/2, 3/2⟩)
  , ("claude-3-opus", ⟨15, 75⟩)
  , ("claude-3-sonnet", ⟨3, 15⟩)
  , ("claude-3-haiku", ⟨1/4, 5/4⟩) ]

/-- `model.includes('/') ? model.split('/')[1] : model` from
`getModelPricing`: the segment at index 1 of the split, not everything after
the first slash. -/
def baseModelOf (model : String) : String :=
  if model.toList.contains '/' then
    String.mk ((JsStr.splitOnChar '/' model.toList).getD 1 [])
  else model

/-- Property names that JavaScript bracket lookup on a plain object literal
resolves on `Object.prototype` when they are not own properties.  Every one
of them yields a truthy value: the built-in methods are functions, and the
`__proto__` accessor returns `Object.prototype` itself. -/
def objectPrototypeProps : List String :=
  ["constructor", "hasOwnProperty", "isPrototypeOf", "propertyIsEnumerable",
   "toLocaleString", "toString", "valueOf", "__defineGetter__",
   "__defineSetter__", "__lookupGetter__", "__lookupSetter__", "__proto__"]

/-- Result of the member lookup `MODEL_PRICING[baseModel]`: an own entry of
the table, a truthy member inherited from `Object.prototype` (not a pricing
record at all), or `undefined`. -/
inductive JsLookup where
  | own (p : ModelPricing)
  | inherited
  | absent
deriving DecidableEq

/-- Exact-match lookup `MODEL_PRICING[baseModel]`, including the prototype
chain: an own table entry shadows the prototype; otherwise names such as
`toString` hit the inherited member. -/
def lookupExact (base : String) : JsLookup :=
  match MODEL_PRICING.find? (fun p => decide (p.1 = base)) with
  | some p => .own p.2
  | none => if objectPrototypeProps.contains base then .inherited else .absent

/-- Partial-match loop of `getModelPricing`: first table entry where
`baseModel.includes(modelName) || modelName.includes(baseModel)`. -/
def lookupPartial (base : String) : Option ModelPricing :=
  (MODEL_PRICING.find? (fun p =>
    JsStr.strHasSubstr base p.1 || JsStr.strHasSubstr p.1 base)).map (·.2)

/-- What `getModelPricing` actually returns: a pricing record, or — when the
truthy check `if (MODEL_PRICING[baseModel])` passes on an inherited
`Object.prototype` member — that member, which is not a pricing record
(its rate fields are `undefined`). -/
inductive PricingResult where
  | pricing (p : ModelPricing)
  | notPricing
deriving DecidableEq

/-- `getModelPricing` from `costCalculator.ts`: the truthy exact-member test
first (own table entry or inherited prototype member), then the partial-match
loop over the own entries, then the default pricing. -/
def getModelPricing (model : String) : PricingResult :=
  match lookupExact (baseModelOf model) with
  | .own p => .pricing p
  | .inherited => .notPricing
  | .absent =>
    match lookupPartial (baseModelOf model) with
    | some p => .pricing p
    | none => .pricing DEFAULT_PRICING

/-- `TokenUsage` from `costCalculator.ts`. -/
structure TokenUsage where
  prompt_tokens : ℕ
  completion_tokens : ℕ
  total_tokens : ℕ

/-- `calculateCost` from `costCalculator.ts`.  When `getModelPricing`
returned an inherited prototype member, `pricing.promptCostPer1K` and
`pricing.completionCostPer1K` are `undefined` and both products are `NaN`;
`none` models that NaN result. -/
def calculateCost (usage : TokenUsage) (model : String) : Option ℚ :=
  match getModelPricing model with
  | .pricing pricing =>
    some ((usage.prompt_tokens : ℚ) / 1000 * pricing.promptCostPer1K
      + (usage.completion_tokens : ℚ) / 1000 * pricing.completionCostPer1K)
  | .notPricing => none

/-- `estimateTokens` from `costCalculator.ts`: `Math.ceil(text.length / 4)`. -/
def estimateTokens (text : String) : ℕ :=
  (text.length + 3) / 4

/-- Content part of a chat message, as inspected by `estimatePromptTokens`:
only the `type` field and an optional string `text` field are read. -/
structure ContentPart where
  ptype : String
  text : Option String

/-- Message content as discriminated by `estimatePromptTokens`:
a string, an array of parts, or anything else (contributes nothing). -/
inductive MessageContent where
  | str (s : String)
  | parts (ps : List ContentPart)
  | other

/-- Character contribution of one content part:
`part.type === 'text' && typeof part.text === 'string'` adds `part.text.length`. -/
def partTextLength (p : ContentPart) : ℕ :=
  match p.text with
  | some t => if p.ptype = "text" then t.length else 0
  | none => 0

/-- Character contribution of one message's content. -/
def contentLength : MessageContent → ℕ
  | .str s => s.length
  | .parts ps => ps.foldl (fun acc p => acc + partTextLength p) 0
  | .other => 0

/-- The running `totalLength` accumulated by `estimatePromptTokens`. -/
def totalContentLength (messages : List MessageContent) : ℕ :=
  messages.foldl (fun acc m => acc + contentLength m) 0

/-- `estimatePromptTokens` from `costCalculator.ts`.  Note the source returns
`estimateTokens(totalLength.toString())`: the heuristic is applied to the
decimal string of the character count, not to the content itself. -/
def estimatePromptTokens (messages : List MessageContent) : ℕ :=
  estimateTokens (toString (totalContentLength messages))

/-- Completion-token estimate used by both streaming paths
(`inferenceController.ts` line 136 and the WebSocket controller):
`Math.ceil(content.length / 4)`. -/
def streamingCompletionTokens (content : String) : ℕ :=
  (content.length + 3) / 4

/-- Modelled from the spec: the claimed character-count heuristic
`ceil(total_characters / 4)`, for comparison with the code's estimator. -/
def specCharEstimate (n : ℕ) : ℕ :=
  (n + 3) / 4

/-- A single message whose string content has exactly 100 characters. -/
def c2msgs : List MessageContent :=
  [MessageContent.str (String.mk (List.replicate 100 'a'))]

/-- Whether a model identifier has neither an exact nor a partial (substring)
match among the pricing table's own entries — the claim's premise. -/
def noPricingMatch (model : String) : Bool :=
  (MODEL_PRICING.find? (fun p => decide (p.1 = baseModelOf model))).isNone &&
  (lookupPartial (baseModelOf model)).isNone

end CostCalc

/-- C2: the spec claims the prompt-token estimate equals `ceil(N / 4)` for `N`
total content characters.  The code (`estimatePromptTokens`) instead applies
the heuristic to `totalLength.toString()`, the decimal numeral of `N`.  At a
single 100-character message the code yields `ceil(3 / 4) = 1` while the
claimed value is `ceil(100 / 4) = 25`; the completion-side estimate does match
the claim. -/
theorem C2_prompt_estimate_mismatch :
    CostCalc.totalContentLength CostCalc.c2msgs = 100 ∧
    CostCalc.estimatePromptTokens CostCalc.c2msgs = 1 ∧
    CostCalc.specCharEstimate 100 = 25 ∧
    CostCalc.estimatePromptTokens CostCalc.c2msgs ≠
      CostCalc.specCharEstimate (CostCalc.totalContentLength CostCalc.c2msgs) ∧
    (∀ content : String,
      CostCalc.streamingCompletionTokens content = CostCalc.specCharEstimate content.length) := by
  refine ⟨by decide, by decide, by decide, by decide, fun content => rfl⟩

/-- C8: the claim says every identifier with no exact or substring match in
the pricing table gets the documented default rates (0.5/1.5 per 1K) and a
rate-formula cost.  JavaScript bracket lookup consults the prototype chain:
for `model = "x/toString"` (well formed per the repo's own `validateModelId`
pattern) the base name matches no table entry, yet
`MODEL_PRICING["toString"]` is the truthy inherited
`Object.prototype.toString`, which the exact-match branch returns as the
pricing; its rate fields are `undefined`, so `calculateCost` is `NaN` — not
the default rates and not the rate formula.  Identifiers whose base name is
not an `Object.prototype` property name do get the nonzero default and the
formula. -/
theorem C8_prototype_lookup_breaks_default :
    CostCalc.noPricingMatch "x/toString" = true ∧
    CostCalc.getModelPricing "x/toString" = CostCalc.PricingResult.notPricing ∧
    CostCalc.getModelPricing "x/toString" ≠
      CostCalc.PricingResult.pricing CostCalc.DEFAULT_PRICING ∧
    CostCalc.calculateCost ⟨1000, 2000, 3000⟩ "x/toString" = none ∧
    CostCalc.DEFAULT_PRICING.promptCostPer1K = 1/2 ∧
    CostCalc.DEFAULT_PRICING.completionCostPer1K = 3/2 ∧
    (∀ (model : String) (usage : CostCalc.TokenUsage),
      CostCalc.noPricingMatch model = true →
      CostCalc.objectPrototypeProps.contains (CostCalc.baseModelOf model) = false →
      CostCalc.getModelPricing model =
        CostCalc.PricingResult.pricing CostCalc.DEFAULT_PRICING ∧
      CostCalc.calculateCost usage model =
        some ((usage.prompt_tokens : ℚ) / 1000 * CostCalc.DEFAULT_PRICING.promptCostPer1K
          + (usage.completion_tokens : ℚ) / 1000
            * CostCalc.DEFAULT_PRICING.completionCostPer1K)) := by
  refine ⟨by decide, by decide, by decide, by decide, rfl, rfl, ?_⟩
  intro model usage h1 h2
  have h1' := (Bool.and_eq_true _ _).mp h1
  have hown : CostCalc.MODEL_PRICING.find?
      (fun p => decide (p.1 = CostCalc.baseModelOf model)) = none :=
    Option.isNone_iff_eq_none.mp h1'.1
  have hpart : CostCalc.lookupPartial (CostCalc.baseModelOf model) = none :=
    Option.isNone_iff_eq_none.mp h1'.2
  have hE : CostCalc.lookupExact (CostCalc.baseModelOf model) =
      CostCalc.JsLookup.absent := by
    unfold CostCalc.lookupExact
    rw [hown]
    simp only [h2]
    rfl
  have hdef : CostCalc.getModelPricing model =
      CostCalc.PricingResult.pricing CostCalc.DEFAULT_PRICING := by
    unfold CostCalc.getModelPricing
    rw [hE, hpart]
  refine ⟨hdef, ?_⟩
  unfold CostCalc.calculateCost
  rw [hdef]

/-- Witness for C8's conditional part at the concrete identifier
`unknown/zz`, whose base name is neither a table entry, nor a substring
match, nor an `Object.prototype` property. -/
theorem C8_prototype_lookup_breaks_default_witness :
    CostCalc.noPricingMatch "unknown/zz" = true ∧
    CostCalc.objectPrototypeProps.contains (CostCalc.baseModelOf "unknown/zz") = false ∧
    CostCalc.getModelPricing "unknown/zz" =
      CostCalc.PricingResult.pricing CostCalc.DEFAULT_PRICING :=
  ⟨by decide, by decide,
    (C8_prototype_lookup_breaks_default.2.2.2.2.2.2 "unknown/zz" ⟨1000, 2000, 3000⟩
      (by decide) (by decide)).1⟩

namespace StreamDecoder

/-- Opaque stand-in for a value produced by `JSON.parse` inside
`transformStreamingResponse` (`src/controllers/inferenceController.ts`,
`OpenRouterService`). -/
structure Json where
  raw : String
deriving DecidableEq

/-- Stand-in for `JSON.stringify` applied to a transformed chunk.  It is
unreachable in the embedded decoder because the method lookup below never
yields a function. -/
def stringify (j : Json) : String :=
  j.raw

/-- Result of the property lookup `(this as any).transformStreamingChunk`
inside the `data` listener of `transformStreamingResponse`.  The listener is
an arrow function, so `this` is the `this` of `start(controller)`; per the
WHATWG Streams standard the constructor invokes `start` with the
underlying-source object literal as the callback `this` value, and that
literal's only property is `start`.  The lookup therefore yields `undefined`
(no function): calling it throws a `TypeError`, which lands in the same
`catch` that swallows JSON parse errors. -/
def sourceTransform : Option (Json → Json) :=
  none

/-- Decoder state of `transformStreamingResponse`: the cross-chunk line
buffer, whether `controller.close()` has run, and the payloads enqueued so
far (in order). -/
structure DecState where
  buffer : List Char
  closed : Bool
  events : List String
deriving DecidableEq

/-- Initial decoder state (`let buffer = ''`, stream open, nothing
enqueued). -/
def initState : DecState :=
  { buffer := [], closed := false, events := [] }

/-- Body of the `for (const line of lines)` loop for one line, parameterized
by the result `transform?` of the `transformStreamingChunk` property lookup.
Returns the new state and whether the handler executed the `return` statement
(taken immediately after `controller.close()` on the `[DONE]` sentinel).
`parse` models `JSON.parse`: `none` when it throws, `some` when it
succeeds. -/
def processLineWith (transform? : Option (Json → Json)) (parse : String → Option Json)
    (st : DecState) (line : List Char) : DecState × Bool :=
  let trimmed := JsStr.trimChars line
  if ("data: ".toList).isPrefixOf trimmed then
    let dat := trimmed.drop 6
    if dat = "[DONE]".toList then
      ({ st with closed := true }, true)
    else
      match parse (String.mk dat) with
      | none => (st, false)
      | some parsed =>
        match transform? with
        | none => (st, false)
        | some f => ({ st with events := st.events ++ [stringify (f parsed) ++ "\n"] }, false)
  else (st, false)

/-- The loop body as it actually runs: the lookup result is
`sourceTransform` (no function, see above). -/
def processLine (parse : String → Option Json) (st : DecState) (line : List Char) :
    DecState × Bool :=
  processLineWith sourceTransform parse st line

/-- The `for` loop over the complete lines of one `data` event, honouring the
early `return` after the sentinel. -/
def processLines (parse : String → Option Json) : DecState → List (List Char) → DecState
  | st, [] => st
  | st, l :: ls =>
    match processLine parse st l with
    | (st', true) => st'
    | (st', false) => processLines parse st' ls

/-- One `stream.on('data', ...)` invocation: append the decoded chunk to the
buffer, split on `'\n'`, keep the trailing partial line as the new buffer
(`buffer = lines.pop() || ''`), and run the line loop on the complete
lines. -/
def handleDataEvent (parse : String → Option Json) (st : DecState) (chunk : String) :
    DecState :=
  let parts := JsStr.splitOnChar '\n' (st.buffer ++ chunk.toList)
  processLines parse { st with buffer := parts.getLastD [] } parts.dropLast

/-- The `stream.on('end', ...)` listener: `controller.close()`. -/
def handleEndEvent (st : DecState) : DecState :=
  { st with closed := true }

/-- A whole feed of `data` events, in arrival order. -/
def runStream (parse : String → Option Json) (chunks : List String) : DecState :=
  chunks.foldl (handleDataEvent parse) initState

/-- Parse function modelling `JSON.parse` succeeding on every frame payload
(the well-formed-frames hypothesis of the claim). -/
def parseOk : String → Option Json :=
  fun s => some ⟨s⟩

/-- Three well-formed frames, each newline-terminated, then the terminal
sentinel, delivered as four byte chunks. -/
def c1feed : List String :=
  ["data: \x7b\x22id\x22:\x221\x22\x7d\n",
   "data: \x7b\x22id\x22:\x222\x22\x7d\n",
   "data: \x7b\x22id\x22:\x223\x22\x7d\n",
   "data: [DONE]\n"]

end StreamDecoder

/-- Helper: one line never adds an event, because the
`transformStreamingChunk` lookup on the callback receiver yields no
function and the resulting `TypeError` is swallowed. -/
theorem processLine_events (parse : String → Option StreamDecoder.Json)
    (st : StreamDecoder.DecState) (line : List Char) :
    ((StreamDecoder.processLine parse st line).1).events = st.events := by
  show ((StreamDecoder.processLineWith none parse st line).1).events = st.events
  unfold StreamDecoder.processLineWith
  split
  · dsimp only
    split
    · split
      · rfl
      · cases parse (String.mk (List.drop 6 (JsStr.trimChars line))) <;> rfl
    · rfl
  · next _ f heq => exact absurd heq (by simp)

/-- Helper: the line loop never adds an event. -/
theorem processLines_events (parse : String → Option StreamDecoder.Json)
    (st : StreamDecoder.DecState) (ls : List (List Char)) :
    (StreamDecoder.processLines parse st ls).events = st.events := by
  induction ls generalizing st with
  | nil => rfl
  | cons l ls ih =>
    unfold StreamDecoder.processLines
    have h := processLine_events parse st l
    cases hp : StreamDecoder.processLine parse st l with
    | mk st' b =>
      cases b
      · simp only []
        rw [ih st']
        rw [hp] at h
        exact h
      · simp only []
        rw [hp] at h
        exact h

/-- Helper: one `data` event never adds an event. -/
theorem handleDataEvent_events (parse : String → Option StreamDecoder.Json)
    (st : StreamDecoder.DecState) (chunk : String) :
    (StreamDecoder.handleDataEvent parse st chunk).events = st.events := by
  unfold StreamDecoder.handleDataEvent
  rw [processLines_events]

/-- Helper: a whole feed never produces an event. -/
theorem runStream_events (parse : String → Option StreamDecoder.Json)
    (chunks : List String) :
    (StreamDecoder.runStream parse chunks).events = [] := by
  unfold StreamDecoder.runStream
  have main : ∀ (cs : List String) (st : StreamDecoder.DecState),
      (cs.foldl (StreamDecoder.handleDataEvent parse) st).events = st.events := by
    intro cs
    induction cs with
    | nil => intro st; rfl
    | cons c cs ih =>
      intro st
      simp only [List.foldl]
      rw [ih, handleDataEvent_events]
  exact main _ _

/-- C1: the spec claims one transformed chunk is enqueued per well-formed
frame (three frames + sentinel → exactly 3 events then completion).  In the
code, the `transformStreamingChunk` method is looked up on the ReadableStream
underlying-source object (the callback `this` value), which does not have it;
the call throws and the `catch` swallows it, so no frame is ever enqueued.
On the concrete three-frame feed the decoder closes having enqueued nothing,
and in general it can never enqueue anything. -/
theorem C1_decoder_enqueues_nothing :
    (StreamDecoder.runStream StreamDecoder.parseOk StreamDecoder.c1feed).events = [] ∧
    (StreamDecoder.runStream StreamDecoder.parseOk StreamDecoder.c1feed).closed = true ∧
    (StreamDecoder.runStream StreamDecoder.parseOk StreamDecoder.c1feed).events.length ≠ 3 ∧
    (∀ (parse : String → Option StreamDecoder.Json) (chunks : List String),
      (StreamDecoder.runStream parse chunks).events = []) := by
  refine ⟨runStream_events _ _, by decide, ?_, runStream_events⟩
  rw [runStream_events]
  decide

namespace Registry

/-- Upstream catalog entry (`Model` in `src/types/openrouter.ts`), with the
fields the registry reads.  Nested objects are flattened
(`top_provider.is_moderated` etc.); `pricing` and `per_request_limits` are
optional because `transformModel` and `getSupportedParametersForModel` guard
for their runtime absence (`model.pricing || ...`,
`model.per_request_limits && ...`). -/
structure Model where
  id : String
  name : String
  description : Option String
  context_length : ℕ
  pricing : Option (String × String)
  architecture_instruct_type : Option String
  top_provider_is_moderated : Bool
  top_provider_max_completion_tokens : Option ℕ
  per_request_limits : Option (Option String × Option String)
deriving DecidableEq

/-- Caller-facing entry (`ModelInfo` in the inference types). -/
structure ModelInfo where
  id : String
  name : String
  description : Option String
  context_length : ℕ
  pricing : String × String
  supported_parameters : List String
  is_moderated : Bool
  max_completion_tokens : Option ℕ
deriving DecidableEq

/-- Error from a failed upstream fetch. -/
structure Err where
  msg : String
deriving DecidableEq

/-- State of `ModelRegistryService`: the `models` map (insertion-ordered, as
a JavaScript `Map` is) and `lastUpdated`.  Timestamps are integers
(milliseconds). -/
structure RegistryState where
  models : List (String × Model)
  lastUpdated : ℤ
deriving DecidableEq

/-- `cacheTimeout = 5 * 60 * 1000` (5 minutes). -/
def cacheTimeout : ℤ := 5 * 60 * 1000

/-- JavaScript `Map.prototype.set`: overwrite in place if the key exists,
else append. -/
def mapSet (m : List (String × Model)) (k : String) (v : Model) : List (String × Model) :=
  if m.any (fun p => decide (p.1 = k)) then
    m.map (fun p => if p.1 = k then (k, v) else p)
  else m ++ [(k, v)]

/-- JavaScript `Map.prototype.get`. -/
def mapGet (m : List (String × Model)) (k : String) : Option Model :=
  (m.find? (fun p => decide (p.1 = k))).map (·.2)

/-- JavaScript `Map.prototype.values` (insertion order). -/
def mapValues (m : List (String × Model)) : List Model :=
  m.map (·.2)

/-- The loop of `refreshModels`: `models.clear()` then `models.set(model.id,
model)` for each fetched model. -/
def buildMap (ms : List Model) : List (String × Model) :=
  ms.foldl (fun acc m => mapSet acc m.id m) []

/-- `refreshModels` from `modelRegistryService.ts`.  `upstream` is the result
of `openrouterService.getModels()` (one upstream fetch).  On rejection the
`catch` rethrows after logging: the map was not cleared and `lastUpdated`
was not advanced.  On success the map is rebuilt and `lastUpdated` is set to
the current time. -/
def refreshModels (st : RegistryState) (now : ℤ) (upstream : Except Err (List Model)) :
    Except Err Unit × RegistryState :=
  match upstream with
  | .error e => (.error e, st)
  | .ok ms => (.ok (), { models := buildMap ms, lastUpdated := now })

/-- The staleness test of `refreshModelsIfNeeded`:
`models.size === 0 || (now - lastUpdated) > cacheTimeout`. -/
def needsRefresh (st : RegistryState) (now : ℤ) : Bool :=
  st.models.isEmpty || decide (now - st.lastUpdated > cacheTimeout)

/-- Outcome of the freshness check preceding every read: the propagated
result, the state answering the read, and how many upstream fetches were
performed (`fetches`). -/
structure RefreshResult where
  result : Except Err Unit
  state : RegistryState
  fetches : ℕ

/-- `refreshModelsIfNeeded` from `modelRegistryService.ts`: refresh exactly
once when the catalog is empty or stale, otherwise do nothing. -/
def refreshModelsIfNeeded (st : RegistryState) (now : ℤ)
    (upstream : Except Err (List Model)) : RefreshResult :=
  if needsRefresh st now then
    ⟨(refreshModels st now upstream).1, (refreshModels st now upstream).2, 1⟩
  else ⟨.ok (), st, 0⟩

/-- `getProviderFromModelId`: `modelId.split('/')[0] || 'unknown'` (the empty
string is falsy, hence replaced). -/
def getProviderFromModelId (modelId : String) : String :=
  match (JsStr.splitOnChar '/' modelId.toList).getD 0 [] with
  | [] => "unknown"
  | cs => String.mk cs

/-- `baseParameters` shared by `getSupportedParameters` and
`getSupportedParametersForModel`. -/
def baseParameters : List String :=
  ["temperature", "max_tokens", "top_p", "frequency_penalty",
   "presence_penalty", "stop", "stream"]

/-- `getProviderSpecificParameters` lookup table. -/
def getProviderSpecificParameters (provider : String) : List String :=
  if provider = "openai" then
    ["logit_bias", "logprobs", "top_logprobs", "response_format", "seed",
     "tools", "tool_choice"]
  else if provider = "anthropic" then
    ["top_k", "repetition_penalty", "min_p", "top_a"]
  else if provider = "google" then
    ["top_k", "candidate_count"]
  else if provider = "cohere" then
    ["top_k", "repetition_penalty"]
  else if provider = "mistral" then
    ["safe_prompt", "random_seed"]
  else if provider = "deepseek" then
    ["top_k", "repetition_penalty"]
  else []

/-- Truthiness of an optional string (JavaScript: absent and `""` are
falsy). -/
def truthyStr : Option String → Bool
  | some s => !s.isEmpty
  | none => false

/-- `getSupportedParametersForModel` (used by `transformModel`). -/
def getSupportedParametersForModel (m : Model) : List String :=
  let providerParameters := getProviderSpecificParameters (getProviderFromModelId m.id)
  let additional₁ :=
    if truthyStr m.architecture_instruct_type then ["system", "user", "assistant"] else []
  let additional₂ :=
    match m.per_request_limits with
    | some (pt, ct) => if truthyStr pt || truthyStr ct then ["max_tokens"] else []
    | none => []
  baseParameters ++ providerParameters ++ (additional₁ ++ additional₂)

/-- `transformModel` from `modelRegistryService.ts`
(`model.pricing || { prompt: '0', completion: '0' }`). -/
def transformModel (m : Model) : ModelInfo :=
  { id := m.id
  , name := m.name
  , description := m.description
  , context_length := m.context_length
  , pricing := m.pricing.getD ("0", "0")
  , supported_parameters := getSupportedParametersForModel m
  , is_moderated := m.top_provider_is_moderated
  , max_completion_tokens := m.top_provider_max_completion_tokens }

/-- Result of one public read: the answer (or propagated refresh error), the
state after the call, and the number of upstream fetches it performed. -/
structure ReadOutcome (α : Type) where
  result : Except Err α
  state : RegistryState
  fetches : ℕ

/-- `getModels`: refresh if needed, then list the snapshot. -/
def getModels (st : RegistryState) (now : ℤ) (upstream : Except Err (List Model)) :
    ReadOutcome (List ModelInfo) :=
  let r := refreshModelsIfNeeded st now upstream
  ⟨r.result.map (fun _ => (mapValues r.state.models).map transformModel), r.state, r.fetches⟩

/-- `getModel`: refresh if needed, then look up one id. -/
def getModel (st : RegistryState) (now : ℤ) (upstream : Except Err (List Model))
    (modelId : String) : ReadOutcome (Option ModelInfo) :=
  let r := refreshModelsIfNeeded st now upstream
  ⟨r.result.map (fun _ => (mapGet r.state.models modelId).map transformModel), r.state, r.fetches⟩

/-- `validateModel`: `(await getModel(id)) !== null`. -/
def validateModel (st : RegistryState) (now : ℤ) (upstream : Except Err (List Model))
    (modelId : String) : ReadOutcome Bool :=
  let g := getModel st now upstream modelId
  ⟨g.result.map Option.isSome, g.state, g.fetches⟩

/-- `getSupportedParameters`: empty for an unknown model, else the base
parameters plus the provider-specific ones (this public method does not add
the architecture-dependent extras). -/
def getSupportedParameters (st : RegistryState) (now : ℤ)
    (upstream : Except Err (List Model)) (modelId : String) : ReadOutcome (List String) :=
  let g := getModel st now upstream modelId
  ⟨g.result.map (fun mi? =>
      match mi? with
      | none => []
      | some _ => baseParameters ++ getProviderSpecificParameters (getProviderFromModelId modelId)),
    g.state, g.fetches⟩

/-- `getModelPricing` (registry): `model?.pricing || null`; the transformed
pricing object is always truthy, so a present model yields its (possibly
defaulted) pricing and an absent model yields `null`. -/
def getModelPricing (st : RegistryState) (now : ℤ) (upstream : Except Err (List Model))
    (modelId : String) : ReadOutcome (Option (String × String)) :=
  let g := getModel st now upstream modelId
  ⟨g.result.map (fun mi? => mi?.map (·.pricing)), g.state, g.fetches⟩

/-- `getModelContextLength`: `model?.context_length || 0`. -/
def getModelContextLength (st : RegistryState) (now : ℤ)
    (upstream : Except Err (List Model)) (modelId : String) : ReadOutcome ℕ :=
  let g := getModel st now upstream modelId
  ⟨g.result.map (fun mi? => (mi?.map (·.context_length)).getD 0), g.state, g.fetches⟩

/-- `isModelModerated`: `model?.is_moderated || false`. -/
def isModelModerated (st : RegistryState) (now : ℤ)
    (upstream : Except Err (List Model)) (modelId : String) : ReadOutcome Bool :=
  let g := getModel st now upstream modelId
  ⟨g.result.map (fun mi? => (mi?.map (·.is_moderated)).getD false), g.state, g.fetches⟩

/-- Stable descending insertion by `context_length`, matching the stable
`Array.prototype.sort` with comparator `(a, b) => b.context_length -
a.context_length`. -/
def insertByContextDesc (m : ModelInfo) : List ModelInfo → List ModelInfo
  | [] => [m]
  | x :: xs =>
    if m.context_length > x.context_length then m :: x :: xs
    else x :: insertByContextDesc m xs

/-- Sort used by `getTopModels`. -/
def sortByContextDesc (ms : List ModelInfo) : List ModelInfo :=
  ms.foldr insertByContextDesc []

/-- `getTopModels` (default limit 10): sort by context length, take the top
`limit`. -/
def getTopModels (st : RegistryState) (now : ℤ) (upstream : Except Err (List Model))
    (limit : ℕ) : ReadOutcome (List ModelInfo) :=
  let g := getModels st now upstream
  ⟨g.result.map (fun ms => (sortByContextDesc ms).take limit), g.state, g.fetches⟩

/-- Query predicate of `searchModels` (case-insensitive substring on id,
name, and — when the description is truthy — description). -/
def matchesQuery (query : String) (m : ModelInfo) : Bool :=
  let q := JsStr.lowerStr query
  JsStr.strHasSubstr (JsStr.lowerStr m.id) q ||
  JsStr.strHasSubstr (JsStr.lowerStr m.name) q ||
  (match m.description with
   | some d => !d.isEmpty && JsStr.strHasSubstr (JsStr.lowerStr d) q
   | none => false)

/-- `searchModels`. -/
def searchModels (st : RegistryState) (now : ℤ) (upstream : Except Err (List Model))
    (query : String) : ReadOutcome (List ModelInfo) :=
  let g := getModels st now upstream
  ⟨g.result.map (fun ms => ms.filter (matchesQuery query)), g.state, g.fetches⟩

/-- `getModelsByProvider`. -/
def getModelsByProvider (st : RegistryState) (now : ℤ) (upstream : Except Err (List Model))
    (provider : String) : ReadOutcome (List ModelInfo) :=
  let g := getModels st now upstream
  ⟨g.result.map (fun ms => ms.filter (fun m =>
      decide (getProviderFromModelId m.id = provider))), g.state, g.fetches⟩

end Registry

namespace Registry

/-- Concrete catalog entry used as witness data. -/
def sampleModel : Model :=
  { id := "openai/gpt-4"
  , name := "GPT-4"
  , description := some "flagship"
  , context_length := 8192
  , pricing := some ("0.00003", "0.00006")
  , architecture_instruct_type := none
  , top_provider_is_moderated := true
  , top_provider_max_completion_tokens := some 4096
  , per_request_limits := none }

end Registry

/-- Helper: the freshness check performs exactly one upstream fetch when the
catalog is empty or stale, and none otherwise. -/
theorem refreshIfNeeded_fetches (st : Registry.RegistryState) (now : ℤ)
    (upstream : Except Registry.Err (List Registry.Model)) :
    (Registry.refreshModelsIfNeeded st now upstream).fetches =
      if Registry.needsRefresh st now then 1 else 0 := by
  unfold Registry.refreshModelsIfNeeded
  split <;> rfl

/-- C5: every registry read (getModels, getModel, validateModel,
searchModels, getModelsByProvider, getTopModels) performs exactly one
upstream catalog fetch when the catalog is empty or its last refresh is more
than 5 minutes old, and zero upstream fetches otherwise. -/
theorem C5_reads_fetch_iff_stale (st : Registry.RegistryState) (now : ℤ)
    (upstream : Except Registry.Err (List Registry.Model))
    (modelId query provider : String) (limit : ℕ) :
    (Registry.getModels st now upstream).fetches =
      (if Registry.needsRefresh st now then 1 else 0) ∧
    (Registry.getModel st now upstream modelId).fetches =
      (if Registry.needsRefresh st now then 1 else 0) ∧
    (Registry.validateModel st now upstream modelId).fetches =
      (if Registry.needsRefresh st now then 1 else 0) ∧
    (Registry.searchModels st now upstream query).fetches =
      (if Registry.needsRefresh st now then 1 else 0) ∧
    (Registry.getModelsByProvider st now upstream provider).fetches =
      (if Registry.needsRefresh st now then 1 else 0) ∧
    (Registry.getTopModels st now upstream limit).fetches =
      (if Registry.needsRefresh st now then 1 else 0) := by
  have h := refreshIfNeeded_fetches st now upstream
  exact ⟨h, h, h, h, h, h⟩

/-- C7: when the upstream fetch of a refresh fails while a prior non-empty
snapshot exists, the error propagates and the registry state is unchanged:
same model map (entry for entry) and same last-refreshed timestamp. -/
theorem C7_refresh_error_preserves_state (st : Registry.RegistryState) (now : ℤ)
    (e : Registry.Err) (h : st.models ≠ []) :
    (Registry.refreshModels st now (Except.error e)).1 = Except.error e ∧
    (Registry.refreshModels st now (Except.error e)).2 = st ∧
    (∀ k, Registry.mapGet (Registry.refreshModels st now (Except.error e)).2.models k =
      Registry.mapGet st.models k) ∧
    (Registry.refreshModels st now (Except.error e)).2.lastUpdated = st.lastUpdated :=
  ⟨rfl, rfl, fun _ => rfl, rfl⟩

/-- Witness for C7 at a concrete one-entry snapshot. -/
theorem C7_refresh_error_preserves_state_witness :
    (Registry.refreshModels ⟨[("openai/gpt-4", Registry.sampleModel)], 5⟩ 10
        (Except.error ⟨"fetch failed"⟩)).1 = Except.error ⟨"fetch failed"⟩ ∧
    (Registry.refreshModels ⟨[("openai/gpt-4", Registry.sampleModel)], 5⟩ 10
        (Except.error ⟨"fetch failed"⟩)).2 = ⟨[("openai/gpt-4", Registry.sampleModel)], 5⟩ :=
  ⟨(C7_refresh_error_preserves_state ⟨[("openai/gpt-4", Registry.sampleModel)], 5⟩ 10
      ⟨"fetch failed"⟩ (by decide)).1,
   (C7_refresh_error_preserves_state ⟨[("openai/gpt-4", Registry.sampleModel)], 5⟩ 10
      ⟨"fetch failed"⟩ (by decide)).2.1⟩

/-- Helper: `Map.set` with a key different from `modelId` cannot make
`modelId` present. -/
theorem mapGet_mapSet_none (m : List (String × Registry.Model)) (k : String)
    (v : Registry.Model) (modelId : String) (hk : k ≠ modelId)
    (h : Registry.mapGet m modelId = none) :
    Registry.mapGet (Registry.mapSet m k v) modelId = none := by
  unfold Registry.mapGet at h ⊢
  have hfind : m.find? (fun p => decide (p.1 = modelId)) = none := by
    cases hf : m.find? (fun p => decide (p.1 = modelId)) with
    | none => rfl
    | some p => rw [hf] at h; simp at h
  have hall := List.find?_eq_none.mp hfind
  unfold Registry.mapSet
  split
  · have hnone : (m.map (fun p => if p.1 = k then (k, v) else p)).find?
        (fun p => decide (p.1 = modelId)) = none := by
      apply List.find?_eq_none.mpr
      intro x hx
      rcases List.mem_map.mp hx with ⟨p, hp, rfl⟩
      by_cases hpk : p.1 = k
      · simp [hpk, hk]
      · simpa [hpk] using hall p hp
    rw [hnone]
    rfl
  · have hnone : (m ++ [(k, v)]).find? (fun p => decide (p.1 = modelId)) = none := by
      apply List.find?_eq_none.mpr
      intro x hx
      rcases List.mem_append.mp hx with h1 | h2
      · exact hall x h1
      · rcases List.mem_singleton.mp h2 with rfl
        simp [hk]
    rw [hnone]
    rfl

/-- Helper: rebuilding the map from models whose ids all differ from
`modelId` leaves `modelId` absent. -/
theorem mapGet_foldl_set_none :
    ∀ (ms : List Registry.Model) (acc : List (String × Registry.Model)) (modelId : String),
      (∀ m ∈ ms, m.id ≠ modelId) → Registry.mapGet acc modelId = none →
      Registry.mapGet (ms.foldl (fun a m => Registry.mapSet a m.id m) acc) modelId = none := by
  intro ms
  induction ms with
  | nil => intro acc modelId _ hacc; exact hacc
  | cons m ms ih =>
    intro acc modelId h hacc
    simp only [List.foldl]
    exact ih _ _ (fun x hx => h x (List.mem_cons_of_mem _ hx))
      (mapGet_mapSet_none acc m.id m modelId (h m (List.mem_cons_self _ _)) hacc)

/-- Helper: `buildMap` of models whose ids all differ from `modelId` leaves
`modelId` absent. -/
theorem mapGet_buildMap_none (ms : List Registry.Model) (modelId : String)
    (h : ∀ m ∈ ms, m.id ≠ modelId) :
    Registry.mapGet (Registry.buildMap ms) modelId = none :=
  mapGet_foldl_set_none ms [] modelId h rfl

/-- Helper: with a successful upstream fetch, the freshness check always
resolves (no error). -/
theorem refreshIfNeeded_ok_result (st : Registry.RegistryState) (now : ℤ)
    (ms : List Registry.Model) :
    (Registry.refreshModelsIfNeeded st now (Except.ok ms)).result = Except.ok () := by
  unfold Registry.refreshModelsIfNeeded
  split <;> rfl

/-- Helper: a model absent from both the prior snapshot and the fetched
catalog is absent from the snapshot answering the read. -/
theorem refreshIfNeeded_ok_absent (st : Registry.RegistryState) (now : ℤ)
    (ms : List Registry.Model) (modelId : String)
    (hst : Registry.mapGet st.models modelId = none)
    (hms : ∀ m ∈ ms, m.id ≠ modelId) :
    Registry.mapGet
      (Registry.refreshModelsIfNeeded st now (Except.ok ms)).state.models modelId = none := by
  unfold Registry.refreshModelsIfNeeded
  split
  · exact mapGet_buildMap_none ms modelId hms
  · exact hst

/-- Helper: `getModel` answers `null` for an absent model. -/
theorem getModel_absent (st : Registry.RegistryState) (now : ℤ)
    (ms : List Registry.Model) (modelId : String)
    (hst : Registry.mapGet st.models modelId = none)
    (hms : ∀ m ∈ ms, m.id ≠ modelId) :
    (Registry.getModel st now (Except.ok ms) modelId).result = Except.ok none := by
  show ((Registry.refreshModelsIfNeeded st now (Except.ok ms)).result.map
    (fun _ => (Registry.mapGet
      (Registry.refreshModelsIfNeeded st now (Except.ok ms)).state.models modelId).map
        Registry.transformModel)) = Except.ok none
  rw [refreshIfNeeded_ok_result]
  simp only [Except.map]
  rw [refreshIfNeeded_ok_absent st now ms modelId hst hms]
  rfl

/-- C10: for a model identifier absent from the catalog (prior snapshot and
fetched catalog alike), the metadata reads return defaults rather than
failing — context length 0, moderated false, supported parameters empty,
pricing absent — and each performs only the freshness-driven refresh (one
fetch when stale, zero otherwise). -/
theorem C10_absent_model_defaults (st : Registry.RegistryState) (now : ℤ)
    (ms : List Registry.Model) (modelId : String)
    (hst : Registry.mapGet st.models modelId = none)
    (hms : ∀ m ∈ ms, m.id ≠ modelId) :
    (Registry.getModelContextLength st now (Except.ok ms) modelId).result = Except.ok 0 ∧
    (Registry.isModelModerated st now (Except.ok ms) modelId).result = Except.ok false ∧
    (Registry.getSupportedParameters st now (Except.ok ms) modelId).result = Except.ok [] ∧
    (Registry.getModelPricing st now (Except.ok ms) modelId).result = Except.ok none ∧
    (Registry.getModelContextLength st now (Except.ok ms) modelId).fetches =
      (if Registry.needsRefresh st now then 1 else 0) ∧
    (Registry.isModelModerated st now (Except.ok ms) modelId).fetches =
      (if Registry.needsRefresh st now then 1 else 0) ∧
    (Registry.getSupportedParameters st now (Except.ok ms) modelId).fetches =
      (if Registry.needsRefresh st now then 1 else 0) ∧
    (Registry.getModelPricing st now (Except.ok ms) modelId).fetches =
      (if Registry.needsRefresh st now then 1 else 0) := by
  have hg := getModel_absent st now ms modelId hst hms
  have hf := refreshIfNeeded_fetches st now (Except.ok ms)
  refine ⟨?_, ?_, ?_, ?_, hf, hf, hf, hf⟩
  · show ((Registry.getModel st now (Except.ok ms) modelId).result.map
      (fun mi? => (mi?.map (·.context_length)).getD 0)) = Except.ok 0
    rw [hg]
    rfl
  · show ((Registry.getModel st now (Except.ok ms) modelId).result.map
      (fun mi? => (mi?.map (·.is_moderated)).getD false)) = Except.ok false
    rw [hg]
    rfl
  · show ((Registry.getModel st now (Except.ok ms) modelId).result.map
      (fun mi? =>
        match mi? with
        | none => []
        | some _ => Registry.baseParameters ++
            Registry.getProviderSpecificParameters
              (Registry.getProviderFromModelId modelId))) = Except.ok []
    rw [hg]
    rfl
  · show ((Registry.getModel st now (Except.ok ms) modelId).result.map
      (fun mi? => mi?.map (·.pricing))) = Except.ok none
    rw [hg]
    rfl

/-- Witness for C10: empty prior catalog, one fetched model, and a lookup of
an id the catalog does not contain. -/
theorem C10_absent_model_defaults_witness :
    Registry.mapGet (Registry.RegistryState.mk [] 0).models "missing/model" = none ∧
    (Registry.getModelContextLength ⟨[], 0⟩ 1 (Except.ok [Registry.sampleModel])
      "missing/model").result = Except.ok 0 ∧
    (Registry.isModelModerated ⟨[], 0⟩ 1 (Except.ok [Registry.sampleModel])
      "missing/model").result = Except.ok false ∧
    (Registry.getSupportedParameters ⟨[], 0⟩ 1 (Except.ok [Registry.sampleModel])
      "missing/model").result = Except.ok [] ∧
    (Registry.getModelPricing ⟨[], 0⟩ 1 (Except.ok [Registry.sampleModel])
      "missing/model").result = Except.ok none := by
  have h := C10_absent_model_defaults ⟨[], 0⟩ 1 [Registry.sampleModel] "missing/model"
    rfl (by decide)
  exact ⟨rfl, h.1, h.2.1, h.2.2.1, h.2.2.2.1⟩

namespace RegistryConc

/-!
Interleaving model for concurrent registry readers.  `refreshModelsIfNeeded`
is an `async` method: its staleness check and the installation of a fetched
catalog are synchronous (atomic in the single-threaded event loop), while
`await this.openrouterService.getModels()` is a suspension point during
which other tasks run.  The code contains no guard around this suspension
(no in-flight promise is shared), so each task independently runs
check → fetch → install.
-/

/-- Progress of one reader through `refreshModelsIfNeeded`. -/
inductive Phase where
  | idle
  | fetching
  | finished
deriving DecidableEq

/-- Scheduler events for two readers A (`false`) and B (`true`): `check` is
the synchronous prologue (staleness test, fetch launch), `complete` is the
resolution of that reader's upstream fetch (snapshot install). -/
inductive Ev where
  | check (b : Bool)
  | complete (b : Bool)
deriving DecidableEq

/-- Shared state: the registry, both readers' phases, how many upstream
fetches are currently in progress, the maximum ever in progress at once, and
the total launched. -/
structure ConcState where
  reg : Registry.RegistryState
  phaseA : Phase
  phaseB : Phase
  inFlight : ℕ
  maxInFlight : ℕ
  totalFetches : ℕ
deriving DecidableEq

/-- Phase of reader `b`. -/
def phaseOf (s : ConcState) (b : Bool) : Phase :=
  if b then s.phaseB else s.phaseA

/-- Update the phase of reader `b`. -/
def setPhase (s : ConcState) (b : Bool) (p : Phase) : ConcState :=
  if b then { s with phaseB := p } else { s with phaseA := p }

/-- One scheduler step.  A `check` by an idle reader runs the staleness test
of `refreshModelsIfNeeded` against the current shared registry; when stale it
launches that reader's own upstream fetch.  A `complete` installs the fetched
catalog exactly as `refreshModels` does on success. -/
def step (now : ℤ) (upstream : List Registry.Model) (s : ConcState) : Ev → ConcState
  | .check b =>
    match phaseOf s b with
    | .idle =>
      if Registry.needsRefresh s.reg now then
        let s' := setPhase s b .fetching
        { s' with
            inFlight := s.inFlight + 1
          , maxInFlight := max s.maxInFlight (s.inFlight + 1)
          , totalFetches := s.totalFetches + 1 }
      else setPhase s b .finished
    | _ => s
  | .complete b =>
    match phaseOf s b with
    | .fetching =>
      let s' := setPhase s b .finished
      { s' with
          reg := (Registry.refreshModels s.reg now (Except.ok upstream)).2
        , inFlight := s.inFlight - 1 }
    | _ => s

/-- Run a schedule from an initial state. -/
def run (now : ℤ) (upstream : List Registry.Model) (evs : List Ev) (s0 : ConcState) :
    ConcState :=
  evs.foldl (step now upstream) s0

/-- Process start: empty catalog, both readers idle, no fetch in flight. -/
def startState : ConcState :=
  ⟨⟨[], 0⟩, .idle, .idle, 0, 0, 0⟩

/-- The racing schedule: both readers run their staleness checks before
either fetch resolves — exactly what the event loop does when two reads
arrive while the catalog is empty. -/
def raceSchedule : List Ev :=
  [.check false, .check true, .complete false, .complete true]

end RegistryConc

/-- C6: the claim says refresh is single-flight (at most one upstream fetch
in progress; concurrent stale observers await the first caller's refresh).
The code has no such guard: under the schedule where both readers check the
empty catalog before either fetch resolves, each launches its own upstream
fetch — two fetches in flight simultaneously and two total, for two
concurrent callers. -/
theorem C6_refresh_not_single_flight :
    (RegistryConc.run 1 [Registry.sampleModel] RegistryConc.raceSchedule
      RegistryConc.startState).totalFetches = 2 ∧
    (RegistryConc.run 1 [Registry.sampleModel] RegistryConc.raceSchedule
      RegistryConc.startState).maxInFlight = 2 ∧
    1 < (RegistryConc.run 1 [Registry.sampleModel] RegistryConc.raceSchedule
      RegistryConc.startState).maxInFlight := by
  refine ⟨by decide, by decide, by decide⟩

namespace WsCtl

/-- `WebSocketConnection` from the WebSocket types (`currentRequestId` is the
in-flight marker). -/
structure WebSocketConnection where
  id : String
  connectedAt : ℤ
  lastActivity : ℤ
  isActive : Bool
  currentRequestId : Option String
  ip : String
deriving DecidableEq

/-- Error carried by a rejected streaming call (`createStreamingCompletion`
throwing). -/
structure Err where
  msg : String
deriving DecidableEq

/-- Outbound session messages the controller sends on the paths modelled
here. -/
inductive WsOut where
  | inferenceResponse (id : String) (content : Option String) (finishReason : Option String)
  | heartbeat (timestamp : ℤ)
  | errorMsg (id : String) (code : ℕ) (etype : String) (message : String)
deriving DecidableEq

/-- `sendError` from the WebSocket controller: the message's `id` field is
the `connectionId` argument (every call site passes the connection id, never
the request id). -/
def sendError (connectionId : String) (code : ℕ) (etype message : String) : WsOut :=
  .errorMsg connectionId code etype message

/-- Fields the streaming loop reads from one parsed chunk
(`data.choices?.[0]?.delta?.content`, `data.choices?.[0]?.finish_reason`). -/
structure Delta where
  content : Option String
  finishReason : Option String
deriving DecidableEq

/-- One iteration of the line loop in `handleInferenceRequest`: blank lines
are skipped, unparsable lines are swallowed, and each parsed chunk appends
its (truthy) content to the running accumulator and sends an
`inference_response` whose `id` is the request id. -/
def processStreamLine (requestId : String) (parseD : String → Option Delta)
    (acc : String × List WsOut) (line : String) : String × List WsOut :=
  if JsStr.trimChars line.toList = [] then acc
  else
    match parseD line with
    | none => acc
    | some d =>
      let newContent :=
        match d.content with
        | some c => if c.isEmpty then acc.1 else acc.1 ++ c
        | none => acc.1
      (newContent, acc.2 ++ [WsOut.inferenceResponse requestId d.content d.finishReason])

/-- Result of `handleInferenceRequest`: the connection afterwards, the
session messages sent, how many upstream streaming calls were started, and
the value the in-flight marker was set to while streaming. -/
structure HandlerResult where
  conn : WebSocketConnection
  outMessages : List WsOut
  upstreamCalls : ℕ
  markerDuringStream : Option String
deriving DecidableEq

/-- `handleInferenceRequest` from the WebSocket controller.  The method
validates the model, then unconditionally sets
`connection.currentRequestId = requestId` and starts an upstream streaming
call — there is no check that `currentRequestId` is already set.  The
`finally` (and the outer `catch`) clear the marker.  `streamLines` is the
sequence of lines read from the upstream stream (or the rejection of
`createStreamingCompletion`); `parseD` models `JSON.parse` plus field
extraction. -/
def handleInferenceRequest (conn : WebSocketConnection) (requestId model : String)
    (modelValid : Bool) (streamLines : Except Err (List String))
    (parseD : String → Option Delta) : HandlerResult :=
  if !modelValid then
    ⟨conn, [sendError conn.id 400 "validation"
        ("Model not found or not supported: " ++ model)], 0, conn.currentRequestId⟩
  else
    match streamLines with
    | .error e =>
      ⟨{ conn with currentRequestId := none },
        [sendError conn.id 500 "internal" e.msg], 1, some requestId⟩
    | .ok lines =>
      let folded := lines.foldl (processStreamLine requestId parseD) ("", [])
      ⟨{ conn with currentRequestId := none }, folded.2, 1, some requestId⟩

/-- Inbound message kinds after JSON parse and shape validation. -/
inductive InMsg where
  | inferenceRequest (id model : String)
  | heartbeatMsg
  | closeMsg (reason : String)
  | unknown (mtype : String)
deriving DecidableEq

/-- Raw inbound message as seen by `handleMessage`: JSON parse failure,
shape-validation failure, or a valid message. -/
inductive RawIn where
  | invalidJson
  | invalidFormat
  | valid (m : InMsg)
deriving DecidableEq

/-- `handleMessage`/`processMessage` dispatch from the WebSocket controller:
update `lastActivity`, then send a validation error (invalid JSON, invalid
format, unknown type), echo a heartbeat, close, or run the inference
handler. -/
def handleMessage (conn : WebSocketConnection) (now : ℤ) (raw : RawIn)
    (modelValid : Bool) (streamLines : Except Err (List String))
    (parseD : String → Option Delta) : WebSocketConnection × List WsOut :=
  let conn := { conn with lastActivity := now }
  match raw with
  | .invalidJson =>
    (conn, [sendError conn.id 400 "validation" "Invalid JSON message"])
  | .invalidFormat =>
    (conn, [sendError conn.id 400 "validation" "Invalid WebSocket message format"])
  | .valid (.inferenceRequest requestId model) =>
    let r := handleInferenceRequest conn requestId model modelValid streamLines parseD
    (r.conn, r.outMessages)
  | .valid .heartbeatMsg => (conn, [WsOut.heartbeat now])
  | .valid (.closeMsg _) => (conn, [])
  | .valid (.unknown mtype) =>
    (conn, [sendError conn.id 400 "validation" ("Unknown message type: " ++ mtype)])

/-- The `id` field of an error session message, if the message is one. -/
def errIdOf : WsOut → Option String
  | .errorMsg i _ _ _ => some i
  | _ => none

/-- Whether an outbound message is a validation error. -/
def isValidationError : WsOut → Bool
  | .errorMsg _ _ t _ => t = "validation"
  | _ => false

/-- One connection's treatment by the heartbeat sweep
(`startHeartbeat`, timeout 60000 ms): a connection whose inactivity exceeds
the timeout is marked inactive and `stats.activeConnections--` runs — on
every sweep, with no `isActive` guard and no record removal.  Otherwise the
connection is left unchanged (the ping sent to active sockets does not
change session state). -/
def sweepStep (now : ℤ) (acc : List WebSocketConnection × ℤ) (c : WebSocketConnection) :
    List WebSocketConnection × ℤ :=
  if now - c.lastActivity > 60000 then
    (acc.1 ++ [{ c with isActive := false }], acc.2 - 1)
  else (acc.1 ++ [c], acc.2)

/-- One full heartbeat sweep over the connection map (run every 30000 ms),
returning the updated connections and active count. -/
def heartbeatSweep (now : ℤ) (conns : List WebSocketConnection) (active : ℤ) :
    List WebSocketConnection × ℤ :=
  conns.foldl (sweepStep now) ([], active)

/-- Connection used in the C3/C4 scenarios. -/
def idleConn : WebSocketConnection :=
  ⟨"session-1", 0, 0, true, none, "10.0.0.1"⟩

/-- Connection with an outstanding in-flight request `r1`. -/
def busyConn : WebSocketConnection :=
  ⟨"conn-1", 0, 0, true, some "r1", "10.0.0.1"⟩

end WsCtl

/-- C3: the spec claims a second inference request on a session with an
outstanding `currentRequestId` is rejected with a validation error and no
upstream call.  The handler contains no such check: on a connection whose
marker is `r1`, a second request `r2` with a valid model starts one upstream
streaming call, emits no validation error, overwrites the marker with `r2`,
and finally clears it.  In general every valid-model request starts an
upstream call regardless of the marker. -/
theorem C3_second_request_not_rejected :
    (WsCtl.handleInferenceRequest WsCtl.busyConn "r2" "openai/gpt-4" true
      (Except.ok ["chunk"]) (fun _ => none)).upstreamCalls = 1 ∧
    ((WsCtl.handleInferenceRequest WsCtl.busyConn "r2" "openai/gpt-4" true
      (Except.ok ["chunk"]) (fun _ => none)).outMessages.all
        (fun m => !(WsCtl.isValidationError m))) = true ∧
    (WsCtl.handleInferenceRequest WsCtl.busyConn "r2" "openai/gpt-4" true
      (Except.ok ["chunk"]) (fun _ => none)).markerDuringStream = some "r2" ∧
    (WsCtl.handleInferenceRequest WsCtl.busyConn "r2" "openai/gpt-4" true
      (Except.ok ["chunk"]) (fun _ => none)).conn.currentRequestId = none ∧
    (∀ (conn : WsCtl.WebSocketConnection) (requestId model : String)
        (streamLines : Except WsCtl.Err (List String))
        (parseD : String → Option WsCtl.Delta),
      (WsCtl.handleInferenceRequest conn requestId model true
        streamLines parseD).upstreamCalls = 1 ∧
      (WsCtl.handleInferenceRequest conn requestId model true
        streamLines parseD).markerDuringStream = some requestId) := by
  refine ⟨by decide, by decide, by decide, by decide, ?_⟩
  intro conn requestId model streamLines parseD
  cases streamLines <;> exact ⟨rfl, rfl⟩

/-- C4: the spec claims a timed-out session's active count decreases by
exactly one in total.  The sweep has no `isActive` guard: a session idle
since `t = 0` is decremented at the sweep at `t = 61000` (count 1 → 0) and
again at the next sweep at `t = 91000` (count 0 → −1), while its record is
never removed by the sweep. -/
theorem C4_sweep_decrements_every_sweep :
    (WsCtl.heartbeatSweep 61000 [WsCtl.idleConn] 1).2 = 0 ∧
    (WsCtl.heartbeatSweep 61000 [WsCtl.idleConn] 1).1 =
      [{ WsCtl.idleConn with isActive := false }] ∧
    (WsCtl.heartbeatSweep 91000 (WsCtl.heartbeatSweep 61000 [WsCtl.idleConn] 1).1
      (WsCtl.heartbeatSweep 61000 [WsCtl.idleConn] 1).2).2 = -1 ∧
    (WsCtl.heartbeatSweep 91000 (WsCtl.heartbeatSweep 61000 [WsCtl.idleConn] 1).1
      (WsCtl.heartbeatSweep 61000 [WsCtl.idleConn] 1).2).1.length = 1 := by
  refine ⟨by decide, by decide, by decide, by decide⟩

/-- Helper: one line-loop iteration either leaves the sent messages alone or
appends one `inference_response` tagged with the request id. -/
theorem processStreamLine_snd (requestId : String) (parseD : String → Option WsCtl.Delta)
    (acc : String × List WsCtl.WsOut) (line : String) :
    (WsCtl.processStreamLine requestId parseD acc line).2 = acc.2 ∨
    ∃ c f, (WsCtl.processStreamLine requestId parseD acc line).2 =
      acc.2 ++ [WsCtl.WsOut.inferenceResponse requestId c f] := by
  unfold WsCtl.processStreamLine
  split
  · exact Or.inl rfl
  · cases parseD line with
    | none => exact Or.inl rfl
    | some d => exact Or.inr ⟨d.content, d.finishReason, rfl⟩

/-- Helper: every message produced by the streaming line loop is an
`inference_response` (never an error message). -/
theorem processFold_mem (requestId : String) (parseD : String → Option WsCtl.Delta) :
    ∀ (lines : List String) (acc : String × List WsCtl.WsOut) (m : WsCtl.WsOut),
      m ∈ (lines.foldl (WsCtl.processStreamLine requestId parseD) acc).2 →
      m ∈ acc.2 ∨ ∃ c f, m = WsCtl.WsOut.inferenceResponse requestId c f := by
  intro lines
  induction lines with
  | nil => intro acc m hm; exact Or.inl hm
  | cons l ls ih =>
    intro acc m hm
    simp only [List.foldl] at hm
    rcases ih _ m hm with h | h
    · rcases processStreamLine_snd requestId parseD acc l with he | ⟨c, f, he⟩
      · rw [he] at h
        exact Or.inl h
      · rw [he] at h
        rcases List.mem_append.mp h with h1 | h2
        · exact Or.inl h1
        · rcases List.mem_singleton.mp h2 with rfl
          exact Or.inr ⟨c, f, rfl⟩
    · exact Or.inr h

/-- C9: every error session message emitted by the message handler (invalid
JSON, shape-validation failure, unknown type, model-not-found, failed
inference) carries the connection identifier in its `id` field — never the
originating request id. -/
theorem C9_error_messages_carry_connection_id
    (conn : WsCtl.WebSocketConnection) (now : ℤ) (raw : WsCtl.RawIn)
    (modelValid : Bool) (streamLines : Except WsCtl.Err (List String))
    (parseD : String → Option WsCtl.Delta) (m : WsCtl.WsOut) (i : String)
    (hm : m ∈ (WsCtl.handleMessage conn now raw modelValid streamLines parseD).2)
    (hi : WsCtl.errIdOf m = some i) :
    i = conn.id := by
  cases raw with
  | invalidJson =>
    have hme : m = WsCtl.sendError conn.id 400 "validation" "Invalid JSON message" := by
      simpa [WsCtl.handleMessage] using hm
    subst hme
    exact (by simpa [WsCtl.sendError, WsCtl.errIdOf] using hi : conn.id = i).symm
  | invalidFormat =>
    have hme : m = WsCtl.sendError conn.id 400 "validation"
        "Invalid WebSocket message format" := by
      simpa [WsCtl.handleMessage] using hm
    subst hme
    exact (by simpa [WsCtl.sendError, WsCtl.errIdOf] using hi : conn.id = i).symm
  | valid msg =>
    cases msg with
    | heartbeatMsg =>
      have hme : m = WsCtl.WsOut.heartbeat now := by
        simpa [WsCtl.handleMessage] using hm
      subst hme
      simp [WsCtl.errIdOf] at hi
    | closeMsg reason =>
      simp [WsCtl.handleMessage] at hm
    | unknown mtype =>
      have hme : m = WsCtl.sendError conn.id 400 "validation"
          ("Unknown message type: " ++ mtype) := by
        simpa [WsCtl.handleMessage] using hm
      subst hme
      exact (by simpa [WsCtl.sendError, WsCtl.errIdOf] using hi : conn.id = i).symm
    | inferenceRequest requestId model =>
      cases modelValid with
      | false =>
        have hme : m = WsCtl.sendError conn.id 400 "validation"
            ("Model not found or not supported: " ++ model) := by
          simpa [WsCtl.handleMessage, WsCtl.handleInferenceRequest] using hm
        subst hme
        exact (by simpa [WsCtl.sendError, WsCtl.errIdOf] using hi : conn.id = i).symm
      | true =>
        cases streamLines with
        | error e =>
          have hme : m = WsCtl.sendError conn.id 500 "internal" e.msg := by
            simpa [WsCtl.handleMessage, WsCtl.handleInferenceRequest] using hm
          subst hme
          exact (by simpa [WsCtl.sendError, WsCtl.errIdOf] using hi : conn.id = i).symm
        | ok lines =>
          have hm' : m ∈ (lines.foldl (WsCtl.processStreamLine requestId parseD)
              ("", [])).2 := by
            simpa [WsCtl.handleMessage, WsCtl.handleInferenceRequest] using hm
          rcases processFold_mem requestId parseD lines ("", []) m hm' with h | ⟨c, f, rfl⟩
          · simp at h
          · simp [WsCtl.errIdOf] at hi

/-- Witness for C9: an invalid-JSON message on connection `conn-7` yields an
error message whose `id` is the connection id. -/
theorem C9_error_messages_carry_connection_id_witness :
    WsCtl.errIdOf (WsCtl.WsOut.errorMsg "conn-7" 400 "validation" "Invalid JSON message") =
      some "conn-7" ∧
    WsCtl.WsOut.errorMsg "conn-7" 400 "validation" "Invalid JSON message" ∈
      (WsCtl.handleMessage ⟨"conn-7", 0, 0, true, none, "ip"⟩ 5 WsCtl.RawIn.invalidJson
        true (Except.ok []) (fun _ => none)).2 ∧
    "conn-7" = (WsCtl.WebSocketConnection.mk "conn-7" 0 0 true none "ip").id :=
  ⟨by decide, by decide,
    C9_error_messages_carry_connection_id ⟨"conn-7", 0, 0, true, none, "ip"⟩ 5
      WsCtl.RawIn.invalidJson true (Except.ok []) (fun _ => none)
      (WsCtl.WsOut.errorMsg "conn-7" 400 "validation" "Invalid JSON message") "conn-7"
      (by decide) (by decide)⟩
